import Mathlib

/-!
Shallow embedding of the goapitemplate event-log and webhook-delivery core.

The definitions below are transcribed from the Go sources:

* `internal/database/database.go` — `CreateEventWithSequence` (per-stream
  sequence assignment inside a transaction);
* the webhook delivery service (`WebhookDeliveryService`): `DeliverEvent`,
  `attemptDelivery`, `deliverToEndpoint`, `generateSignature`,
  `calculateRetryDelay`, `RetryFailedDeliveries`;
* `internal/events/events.go` — `Manager.Publish`, `generateEventID`,
  `randomString`;
* `pkg/models/models.go` — the `Event`, `WebhookEndpoint` and
  `WebhookDelivery` records.

Modelling conventions: Go strings and byte slices that are only compared or
concatenated stay `String`; the HTTP response body and HMAC payloads, where
Go's byte-level `len`/slicing matters, are `List Nat` (one entry per byte);
timestamps are `Int` nanoseconds; Go `int64` arithmetic that can overflow
(`calculateRetryDelay`) wraps through an explicit two's-complement model.
Each delivery attempt's HTTP outcome is an explicit `HTTPResult` input, and
the in-process retry loop of `attemptDelivery` is a fuel recursion whose fuel
is the loop bound, exactly the Go `for attempt := 1; attempt <= maxRetries`.
-/

/-- `models.Event` (pkg/models/models.go). `Data` is kept as opaque marshalled
text; `Timestamp`/`CreatedAt` are unix nanoseconds. -/
structure Event where
  id : String
  type : String
  streamID : String
  source : String
  data : String
  timestamp : Int
  createdAt : Int
  sequenceNumber : Int
deriving Repr, DecidableEq

/-- `models.WebhookEndpoint`. `maxRetries` and `timeoutSeconds` are Go `int`
and may be non-positive (the delivery engine substitutes defaults). -/
structure WebhookEndpoint where
  id : String
  name : String
  url : String
  secret : String
  eventTypes : List String
  enabled : Bool
  maxRetries : Int
  timeoutSeconds : Int
deriving Repr, DecidableEq

/-- `models.WebhookDelivery`. `attemptCount` is a Go `int` that the code only
ever assigns 0 or the (positive) loop index, hence `Nat`; `response` is the
stored body bytes. -/
structure WebhookDelivery where
  id : String
  webhookID : String
  eventID : String
  status : String
  attemptCount : Nat
  lastAttempt : Option Int
  nextRetry : Option Int
  response : List Nat
  errorMessage : String
  createdAt : Int
  updatedAt : Int
deriving Repr, DecidableEq

/-- Sequence numbers of the events of stream `s`, in table insertion order
(the order `tx.Create` persisted them). -/
def streamSeqs (db : List Event) (s : String) : List Int :=
  (db.filter (fun e => e.streamID == s)).map (fun e => e.sequenceNumber)

/-- `COALESCE(MAX(sequence_number), 0)` over a column: 0 on an empty set,
otherwise the maximum. -/
def sqlMaxVal : List Int → Int
  | [] => 0
  | x :: xs => xs.foldl max x

/-- The `SELECT COALESCE(MAX(sequence_number), 0) ... WHERE stream_id = ?`
read inside `CreateEventWithSequence`. -/
def sqlMaxSeq (db : List Event) (s : String) : Int :=
  sqlMaxVal (streamSeqs db s)

/-- `database.CreateEventWithSequence`: inside one transaction, read the
stream's max sequence number, assign `maxSeq + 1`, insert the event. Returns
the new table state and the stored event. -/
def createEventWithSequence (db : List Event) (e : Event) : List Event × Event :=
  let maxSeq := sqlMaxSeq db e.streamID
  let e2 := { e with sequenceNumber := maxSeq + 1 }
  (db ++ [e2], e2)

/-- A sequence of successful appends, each through
`createEventWithSequence`. -/
def appendEvents (db : List Event) (es : List Event) : List Event :=
  es.foldl (fun acc e => (createEventWithSequence acc e).1) db

/-- The integer list `[1, 2, ..., k]`: the sequence numbers a dense 1-based
stream of `k` events must carry. -/
def seqR (k : Nat) : List Int :=
  (List.range' 1 k).map (fun i : Nat => (i : Int))

/-- Two's-complement wrap of an integer into `int64`. -/
def wrap64 (x : Int) : Int :=
  let m := x % (2 ^ 64 : Int)
  if m < 2 ^ 63 then m else m - 2 ^ 64

/-- Go `time.Duration(1) << k` (a non-constant shift at type `int64`): shift
counts of 64 or more produce 0, and `1 << 63` wraps negative. -/
def goShiftOne64 (k : Nat) : Int :=
  if k < 64 then wrap64 (2 ^ k) else 0

/-- `calculateRetryDelay` from the webhook delivery service:
`delay := time.Duration(1<<uint(attempt-1)) * time.Second; if delay >
30*time.Second then 30*time.Second`. `attempt` is a Go `int`; `uint(attempt-1)`
reinterprets it mod 2^64; the multiplication by `time.Second = 10^9` wraps in
`int64`. Result in nanoseconds. -/
def calculateRetryDelay (attempt : Int) : Int :=
  let k := ((attempt - 1) % (2 ^ 64 : Int)).toNat
  let delay := wrap64 (goShiftOne64 k * 1000000000)
  if delay > 30 * 1000000000 then 30 * 1000000000 else delay

/-- `webhook.MaxRetries`, defaulting to 3 when unset or non-positive
(`if maxRetries <= 0 { maxRetries = 3 }`). -/
def effectiveMaxRetries (m : Int) : Nat :=
  if m ≤ 0 then 3 else m.toNat

/-- Outcome of one HTTP POST as the delivery engine observes it:
`client.Do` failing at transport level, or a response with a status code and
body bytes. -/
inductive HTTPResult where
  | transportError (msg : String)
  | response (status : Nat) (body : List Nat)
deriving Repr, DecidableEq

/-- The response-body truncation inline in `deliverToEndpoint`:
`if len(responseStr) > 1000 { responseStr = responseStr[:1000] + "..." }`.
`[46, 46, 46]` are the bytes of `"..."`. -/
def truncateResponse (body : List Nat) : List Nat :=
  if body.length > 1000 then body.take 1000 ++ [46, 46, 46] else body

/-- `deliverToEndpoint`'s classification of one attempt, returning Go's
`(success, responseStr, err)` triple. Request construction is modelled
separately by `buildWebhookRequest`. -/
def deliverToEndpoint (r : HTTPResult) : Bool × List Nat × Option String :=
  match r with
  | .transportError msg => (false, [], some ("request failed: " ++ msg))
  | .response status body =>
    let responseStr := truncateResponse body
    let success := decide (200 ≤ status) && decide (status < 300)
    if success then (true, responseStr, none)
    else (false, responseStr, some ("webhook returned status " ++ toString status))

/-- One iteration of the `attemptDelivery` loop body for loop index `i`: set
`AttemptCount`/`LastAttempt`/`UpdatedAt`, classify the outcome, then update
status, `NextRetry`, `ErrorMessage` and `Response` exactly as the Go branches
do. The record this returns is what `db.Save` persists after the attempt. -/
def attemptStep (maxR i : Nat) (now : Int) (r : HTTPResult) (d : WebhookDelivery) :
    WebhookDelivery :=
  let out := deliverToEndpoint r
  let success := out.1
  let response := out.2.1
  let err := out.2.2
  let d1 := { d with attemptCount := i, lastAttempt := some now, updatedAt := now }
  if success then
    { d1 with status := "success", response := response, errorMessage := "", nextRetry := none }
  else
    let d2 :=
      if i < maxR then
        { d1 with status := "pending", nextRetry := some (now + calculateRetryDelay (i : Int)) }
      else
        { d1 with status := "failed", nextRetry := none }
    let d3 := match err with
      | some m => { d2 with errorMessage := m }
      | none => d2
    { d3 with response := response }

/-- The `for attempt := 1; attempt <= maxRetries; attempt++` loop of
`attemptDelivery`, with `break` on success. `fuel` counts the iterations still
allowed (`maxRetries - attempt + 1`); `times i`/`results i` are the wall clock
and HTTP outcome of iteration `i`. -/
def attemptLoop (maxR : Nat) (times : Nat → Int) (results : Nat → HTTPResult) :
    Nat → Nat → WebhookDelivery → WebhookDelivery
  | 0, _, d => d
  | fuel + 1, i, d =>
    let d2 := attemptStep maxR i (times i) (results i) d
    if (deliverToEndpoint (results i)).1 then d2
    else attemptLoop maxR times results fuel (i + 1) d2

/-- `attemptDelivery`: resolve the effective retry bound, then run the attempt
loop from index 1 on the given delivery record. -/
def attemptDelivery (w : WebhookEndpoint) (times : Nat → Int) (results : Nat → HTTPResult)
    (d : WebhookDelivery) : WebhookDelivery :=
  let maxR := effectiveMaxRetries w.maxRetries
  attemptLoop maxR times results maxR 1 d

/-- The webhook rows returned by `DeliverEvent`'s query plus its Go-side type
filter: `Where("enabled = ?", true)`, then keep endpoints whose `EventTypes`
contains the event's type. -/
def matchingWebhooks (rows : List WebhookEndpoint) (eventType : String) :
    List WebhookEndpoint :=
  (rows.filter (fun w => w.enabled)).filter (fun w => w.eventTypes.contains eventType)

/-- The initial delivery record `DeliverEvent` creates per matching webhook:
status `"pending"`, `AttemptCount: 0`, and no `NextRetry`/`LastAttempt`. -/
def initialDelivery (deliveryID : String) (w : WebhookEndpoint) (e : Event) (now : Int) :
    WebhookDelivery :=
  { id := deliveryID, webhookID := w.id, eventID := e.id, status := "pending",
    attemptCount := 0, lastAttempt := none, nextRetry := none, response := [],
    errorMessage := "", createdAt := now, updatedAt := now }

/-- `DeliverEvent`: query the enabled webhooks (`findErr` injects a query
failure, which is returned), filter by event type, then create one delivery
record per match; a record whose `Create` fails (`createOk` false) is logged
and skipped (`continue`). Returns the created records and the error value
`DeliverEvent` returns. Each spawned `attemptDelivery` is modelled by
`attemptDelivery` itself. -/
def deliverEvent (findErr : Option String) (createOk : String → Bool)
    (rows : List WebhookEndpoint) (e : Event) (now : Int) :
    List WebhookDelivery × Option String :=
  match findErr with
  | some msg => ([], some msg)
  | none =>
    let webhooks := matchingWebhooks rows e.type
    ((webhooks.filter (fun w => createOk w.id)).map
      (fun w => initialDelivery ("del_" ++ w.id) w e now), none)

/-- The sweep query of `RetryFailedDeliveries`:
`Where("status = ? AND next_retry <= ?", "pending", time.Now())`. A SQL `NULL`
`next_retry` never satisfies `next_retry <= now`. -/
def retryDue (deliveries : List WebhookDelivery) (now : Int) : List WebhookDelivery :=
  deliveries.filter (fun d =>
    d.status == "pending" &&
      (match d.nextRetry with
       | some t => decide (t ≤ now)
       | none => false))

/-- The claimed `WebhookDelivery` state invariant: a next-retry timestamp is
present exactly when the delivery is still pending with attempts remaining. -/
def nextRetryInvariant (maxR : Nat) (d : WebhookDelivery) : Prop :=
  d.nextRetry.isSome = true ↔ (d.status = "pending" ∧ d.attemptCount < maxR)

/-- 32-bit mask. -/
def mask32 : Nat := 4294967295

/-- Addition mod 2^32, the word arithmetic of SHA-256. -/
def add32 (a b : Nat) : Nat := (a + b) % 4294967296

/-- Right rotation of a 32-bit word. -/
def rotr32 (n x : Nat) : Nat := ((x >>> n) ||| (x <<< (32 - n))) &&& mask32

/-- SHA-256 big sigma-0. -/
def sumA32 (x : Nat) : Nat := rotr32 2 x ^^^ rotr32 13 x ^^^ rotr32 22 x

/-- SHA-256 big sigma-1. -/
def sumE32 (x : Nat) : Nat := rotr32 6 x ^^^ rotr32 11 x ^^^ rotr32 25 x

/-- SHA-256 small sigma-0. -/
def sigSched0 (x : Nat) : Nat := rotr32 7 x ^^^ rotr32 18 x ^^^ (x >>> 3)

/-- SHA-256 small sigma-1. -/
def sigSched1 (x : Nat) : Nat := rotr32 17 x ^^^ rotr32 19 x ^^^ (x >>> 10)

/-- SHA-256 choice function. -/
def chF (x y z : Nat) : Nat := (x &&& y) ^^^ ((x ^^^ mask32) &&& z)

/-- SHA-256 majority function. -/
def majF (x y z : Nat) : Nat := (x &&& y) ^^^ (x &&& z) ^^^ (y &&& z)

/-- The 64 SHA-256 round constants. -/
def sha256K : List Nat :=
  [1116352408, 1899447441, 3049323471, 3921009573, 961987163,
   1508970993, 2453635748, 2870763221, 3624381080, 310598401,
   607225278, 1426881987, 1925078388, 2162078206, 2614888103,
   3248222580, 3835390401, 4022224774, 264347078, 604807628,
   770255983, 1249150122, 1555081692, 1996064986, 2554220882,
   2821834349, 2952996808, 3210313671, 3336571891, 3584528711,
   113926993, 338241895, 666307205, 773529912, 1294757372,
   1396182291, 1695183700, 1986661051, 2177026350, 2456956037,
   2730485921, 2820302411, 3259730800, 3345764771, 3516065817,
   3600352804, 4094571909, 275423344, 430227734, 506948616,
   659060556, 883997877, 958139571, 1322822218, 1537002063,
   1747873779, 1955562222, 2024104815, 2227730452, 2361852424,
   2428436474, 2756734187, 3204031479, 3329325298]

/-- The SHA-256 initial hash value. -/
def sha256H0 : List Nat :=
  [1779033703, 3144134277, 1013904242, 2773480762, 1359893119,
   2600822924, 528734635, 1541459225]

/-- Big-endian 32-bit words from a byte list. -/
def toWords32 : List Nat → List Nat
  | b0 :: b1 :: b2 :: b3 :: rest =>
    ((b0 <<< 24) ||| (b1 <<< 16) ||| (b2 <<< 8) ||| b3) :: toWords32 rest
  | _ => []

/-- One message-schedule extension step: append
`sigSched1 w[t-2] + w[t-7] + sigSched0 w[t-15] + w[t-16]`. -/
def extendW (w : List Nat) : List Nat :=
  w ++ [add32 (add32 (sigSched1 (w.getD (w.length - 2) 0)) (w.getD (w.length - 7) 0))
          (add32 (sigSched0 (w.getD (w.length - 15) 0)) (w.getD (w.length - 16) 0))]

/-- Extend the 16 block words to the 64-entry schedule. -/
def schedule (w16 : List Nat) : List Nat :=
  (List.range 48).foldl (fun w _ => extendW w) w16

/-- One SHA-256 round on the state `[a,b,c,d,e,f,g,h]` with round constant and
schedule word `kw`. -/
def compressStep (s : List Nat) (kw : Nat × Nat) : List Nat :=
  match s with
  | [a, b, c, d, e, f, g, h] =>
    let t1 := add32 (add32 (add32 h (sumE32 e)) (add32 (chF e f g) kw.1)) kw.2
    let t2 := add32 (sumA32 a) (majF a b c)
    [add32 t1 t2, a, b, c, add32 d t1, e, f, g]
  | _ => s

/-- Compress one 64-byte block into the running hash. -/
def processBlock (h0 : List Nat) (block : List Nat) : List Nat :=
  let s := (sha256K.zip (schedule (toWords32 block))).foldl compressStep h0
  (h0.zip s).map (fun p => add32 p.1 p.2)

/-- Big-endian 8-byte encoding of a length in bits. -/
def beBytes8 (n : Nat) : List Nat :=
  [(n >>> 56) % 256, (n >>> 48) % 256, (n >>> 40) % 256, (n >>> 32) % 256,
   (n >>> 24) % 256, (n >>> 16) % 256, (n >>> 8) % 256, n % 256]

/-- Big-endian 4-byte encoding of a 32-bit word. -/
def beBytes4 (n : Nat) : List Nat :=
  [(n >>> 24) % 256, (n >>> 16) % 256, (n >>> 8) % 256, n % 256]

/-- SHA-256 padding: `0x80`, zeros to 56 mod 64, then the bit length. -/
def sha256Pad (msg : List Nat) : List Nat :=
  msg ++ [128] ++ List.replicate ((119 - (msg.length % 64)) % 64) 0 ++ beBytes8 (msg.length * 8)

/-- Fold `n` consecutive 64-byte blocks of `l` into the hash state. -/
def sha256Blocks (h : List Nat) (l : List Nat) : Nat → List Nat
  | 0 => h
  | n + 1 => sha256Blocks (processBlock h (l.take 64)) (l.drop 64) n

/-- SHA-256 of a byte list, as 32 digest bytes (the `crypto/sha256` the
webhook signer calls). -/
def sha256 (msg : List Nat) : List Nat :=
  let padded := sha256Pad msg
  ((sha256Blocks sha256H0 padded (padded.length / 64)).map beBytes4).flatten

/-- HMAC-SHA256 (`crypto/hmac` with `sha256.New`): keys longer than the
64-byte block are hashed, then zero-padded; inner pad `0x36`, outer `0x5c`. -/
def hmacSha256 (key msg : List Nat) : List Nat :=
  let k1 := if key.length > 64 then sha256 key else key
  let k2 := k1 ++ List.replicate (64 - k1.length) 0
  sha256 ((k2.map (fun b => b ^^^ 0x5c)) ++ sha256 ((k2.map (fun b => b ^^^ 0x36)) ++ msg))

/-- UTF-8 bytes of one character, as Go produces for `[]byte(s)`. -/
def charUTF8 (c : Char) : List Nat :=
  let n := c.toNat
  if n < 0x80 then [n]
  else if n < 0x800 then [0xC0 ||| (n >>> 6), 0x80 ||| (n &&& 0x3F)]
  else if n < 0x10000 then
    [0xE0 ||| (n >>> 12), 0x80 ||| ((n >>> 6) &&& 0x3F), 0x80 ||| (n &&& 0x3F)]
  else
    [0xF0 ||| (n >>> 18), 0x80 ||| ((n >>> 12) &&& 0x3F), 0x80 ||| ((n >>> 6) &&& 0x3F),
     0x80 ||| (n &&& 0x3F)]

/-- Go `[]byte(s)`: the UTF-8 bytes of a string. -/
def strBytes (s : String) : List Nat := (s.data.map charUTF8).flatten

/-- Lowercase hex digit. -/
def hexDigit (n : Nat) : Char := "0123456789abcdef".data.getD (n % 16) '0'

/-- `hex.EncodeToString`: lowercase hex of a byte list. -/
def hexOfBytes (bs : List Nat) : String :=
  String.mk ((bs.map (fun b => [hexDigit (b / 16), hexDigit (b % 16)])).flatten)

/-- `generateSignature`: `"sha256=" + hex(HMAC-SHA256(secret, payload))`. -/
def generateSignature (payload : List Nat) (secret : String) : String :=
  "sha256=" ++ hexOfBytes (hmacSha256 (strBytes secret) payload)

/-- The outgoing POST as `deliverToEndpoint` assembles it. -/
structure HTTPRequest where
  method : String
  url : String
  body : List Nat
  headers : List (String × String)
deriving Repr, DecidableEq

/-- Request construction in `deliverToEndpoint`: POST to the endpoint URL with
the marshalled payload bytes as body; fixed headers; the signature header only
when `webhook.Secret != ""`, computed over the same `payloadBytes` the request
carries; then the event metadata headers. -/
def buildWebhookRequest (webhook : WebhookEndpoint) (event : Event)
    (payloadBytes : List Nat) : HTTPRequest :=
  { method := "POST", url := webhook.url, body := payloadBytes,
    headers :=
      [("Content-Type", "application/json"),
       ("User-Agent", "GoAPITemplate-Webhook/1.0")] ++
      (if webhook.secret = "" then []
       else [("X-Webhook-Signature", generateSignature payloadBytes webhook.secret)]) ++
      [("X-Event-Type", event.type),
       ("X-Event-Stream", event.streamID),
       ("X-Event-ID", event.id)] }

/-- Value of a request header, none when the header is absent. -/
def headerValue (req : HTTPRequest) (name : String) : Option String :=
  (req.headers.find? (fun p => p.1 == name)).map (fun p => p.2)

/-- What one call to `events.Manager.Publish` does, abstracted over its
injected outcomes: `storePresent` is `m.store != nil`; `saveResult` the error
from `store.SaveEvent`; `handlersForType` is `m.handlers[event.Type]` (`none`
when the type is absent), each handler yielding an error or not. The record
collects Publish's return value, whether the event reached the store, and the
messages that were only logged. -/
structure PublishResult where
  ret : Option String
  savedToStore : Bool
  logged : List String
deriving Repr, DecidableEq

/-- `Manager.Publish` (internal/events/events.go): a `SaveEvent` failure is
logged and execution continues; handler errors are collected and logged;
every path returns `nil`. -/
def managerPublish (storePresent : Bool) (saveResult : Option String)
    (handlersForType : Option (List (Option String))) : PublishResult :=
  let saveLogs :=
    if storePresent then
      match saveResult with
      | some e => ["Failed to save event to store: " ++ e]
      | none => []
    else []
  let saved := storePresent && saveResult.isNone
  match handlersForType with
  | none => { ret := none, savedToStore := saved, logged := saveLogs }
  | some hs =>
    { ret := none, savedToStore := saved,
      logged := saveLogs ++ hs.filterMap (fun res => res.map (fun e => "Event handler failed: " ++ e)) }

/-- The `charset` constant of `randomString`. -/
def charsetChars : List Char :=
  "abcdefghijklmnopqrstuvwxyzABCDEFGHIJKLMNOPQRSTUVWXYZ0123456789".data

/-- `randomString` (internal/events/events.go): despite its name it takes no
entropy — `result[i] = charset[i%len(charset)]`. The `getD` default is never
used since the index is reduced mod the charset length. -/
def randomString (length : Nat) : String :=
  String.mk ((List.range length).map (fun i => charsetChars.getD (i % charsetChars.length) 'a'))

/-- `generateEventID`: `fmt.Sprintf("event_%d_%s", time.Now().Unix(),
randomString(8))`, as a function of the current unix second. -/
def generateEventID (unixNow : Int) : String :=
  "event_" ++ toString unixNow ++ "_" ++ randomString 8

/-- Fixture: an event of type `"user.created"`. -/
def evUser : Event :=
  { id := "evt-1", type := "user.created", streamID := "user-stream",
    source := "user-service", data := "", timestamp := 0, createdAt := 0,
    sequenceNumber := 1 }

/-- Fixture: an enabled webhook subscribed to `"user.created"`. -/
def wUser : WebhookEndpoint :=
  { id := "wh1", name := "Test Webhook", url := "http://example.com/webhook",
    secret := "test-secret", eventTypes := ["user.created", "user.updated"],
    enabled := true, maxRetries := 3, timeoutSeconds := 30 }

/-- Fixture: the record `DeliverEvent` creates for `wUser`/`evUser`. -/
def dFresh : WebhookDelivery := initialDelivery "del_wh1" wUser evUser 0

/-- Fixture: a pending delivery that already carries two recorded attempts and
a next-retry timestamp in the past, as the sweep would find it. -/
def dSwept : WebhookDelivery :=
  { dFresh with attemptCount := 2, nextRetry := some (-60) }

/-- Fixture: a constant clock. -/
def timesZero : Nat → Int := fun _ => 0

/-- Fixture: the endpoint answers every attempt with `200 OK`. -/
def resultsOk : Nat → HTTPResult := fun _ => .response 200 [111, 107]

/-- Fixture: the endpoint answers 500 on the first attempt and 200 after. -/
def resultsFlaky : Nat → HTTPResult :=
  fun i => if i = 1 then .response 500 [101] else .response 200 [111, 107]

/-- Fixture: a 1001-byte response body. -/
def longBody : List Nat := List.replicate 1001 97

/-- `seqR` grows by appending the next integer. -/
theorem seqR_concat (k : Nat) : seqR (k + 1) = seqR k ++ [((k + 1 : Nat) : Int)] := by
  simp [seqR, List.range'_concat, Nat.add_comm]

/-- `[1..k]` is strictly increasing. -/
theorem seqR_pairwise (k : Nat) : (seqR k).Pairwise (· < ·) := by
  have h : List.Pairwise (fun a b : Nat => (a : Int) < b) (List.range' 1 k) :=
    (List.pairwise_lt_range' 1 k).imp (fun hab => by exact_mod_cast hab)
  simpa [seqR, List.pairwise_map] using h

/-- The SQL max of `[1..k]` is `k`. -/
theorem sqlMaxVal_seqR (k : Nat) : sqlMaxVal (seqR k) = k := by
  induction k with
  | zero => rfl
  | succ n ih =>
    rw [seqR_concat]
    cases hs : seqR n with
    | nil => simp [sqlMaxVal]
    | cons x xs =>
      rw [hs] at ih
      simp only [sqlMaxVal, List.cons_append, List.foldl_append, List.foldl] at ih ⊢
      rw [ih]
      push_cast
      exact max_eq_right (by omega)

/-- Appending one row extends a stream's sequence list by the new row's
sequence number exactly when the row belongs to the stream. -/
theorem streamSeqs_snoc (db : List Event) (e : Event) (s : String) :
    streamSeqs (db ++ [e]) s =
      streamSeqs db s ++ (if e.streamID == s then [e.sequenceNumber] else []) := by
  by_cases h : e.streamID == s <;>
    simp [streamSeqs, List.filter_append, List.filter, h]

/-- Invariant of successive appends: a stream holding exactly `[1..k]` holds
exactly `[1..k+n]` after `n` more appends to it. -/
theorem appendEvents_streamSeqs (es : List Event) (db : List Event) (s : String) (k : Nat)
    (hall : ∀ e ∈ es, e.streamID = s) (hdb : streamSeqs db s = seqR k) :
    streamSeqs (appendEvents db es) s = seqR (k + es.length) := by
  induction es generalizing db k with
  | nil => simpa [appendEvents] using hdb
  | cons e es ih =>
    have hs : e.streamID = s := hall e (List.mem_cons_self e es)
    have hmax : sqlMaxSeq db s = (k : Int) := by
      rw [sqlMaxSeq, hdb]; exact sqlMaxVal_seqR k
    have hstep : streamSeqs ((createEventWithSequence db e).1) s = seqR (k + 1) := by
      unfold createEventWithSequence
      rw [streamSeqs_snoc, hdb, seqR_concat]
      simp [hs, hmax]
    have harith : k + (e :: es).length = (k + 1) + es.length := by
      simp [List.length_cons]; omega
    rw [harith]
    have hrest : appendEvents db (e :: es) = appendEvents (createEventWithSequence db e).1 es := by
      simp [appendEvents]
    rw [hrest]
    exact ih (createEventWithSequence db e).1 (k + 1)
      (fun e2 he2 => hall e2 (List.mem_cons_of_mem _ he2)) hstep

/-- C1: starting from a stream with no recorded events, every
`createEventWithSequence` append assigns `1 + max(recorded sequence numbers)`
(1 on the first), so after `N` successful appends to one stream the recorded
sequence numbers are exactly `[1, ..., N]` — dense, duplicate-free and
strictly increasing in append order. -/
theorem createEventWithSequence_dense (db : List Event) (es : List Event) (s : String)
    (hall : ∀ e ∈ es, e.streamID = s) (hempty : streamSeqs db s = []) :
    streamSeqs (appendEvents db es) s = seqR es.length ∧
    (streamSeqs (appendEvents db es) s).Pairwise (· < ·) ∧
    (∀ db2 e2, (createEventWithSequence db2 e2).2.sequenceNumber =
      sqlMaxSeq db2 e2.streamID + 1) := by
  have h0 : streamSeqs db s = seqR 0 := by simpa [seqR] using hempty
  have hmain := appendEvents_streamSeqs es db s 0 hall h0
  simp only [Nat.zero_add] at hmain
  exact ⟨hmain, hmain ▸ seqR_pairwise es.length, fun db2 e2 => rfl⟩

/-- C1 witness: three appends to the fresh stream `"s"` record `[1, 2, 3]`. -/
theorem createEventWithSequence_dense_witness :
    streamSeqs (appendEvents []
      [{ evUser with streamID := "s" }, { evUser with id := "evt-2", streamID := "s" },
       { evUser with id := "evt-3", streamID := "s" }]) "s" =
      seqR [{ evUser with streamID := "s" }, { evUser with id := "evt-2", streamID := "s" },
       { evUser with id := "evt-3", streamID := "s" }].length ∧
    (streamSeqs (appendEvents []
      [{ evUser with streamID := "s" }, { evUser with id := "evt-2", streamID := "s" },
       { evUser with id := "evt-3", streamID := "s" }]) "s").Pairwise (· < ·) ∧
    (∀ db2 e2, (createEventWithSequence db2 e2).2.sequenceNumber =
      sqlMaxSeq db2 e2.streamID + 1) :=
  createEventWithSequence_dense []
    [{ evUser with streamID := "s" }, { evUser with id := "evt-2", streamID := "s" },
     { evUser with id := "evt-3", streamID := "s" }] "s" (by decide) rfl

/-- C2: the retry delay follows `min(2^(attempt-1) s, 30 s)` on the spec's
sample attempts, but the `int64` nanosecond product overflows from attempt 35
on: attempt 35 yields a negative delay and attempt 64 yields zero, instead of
the claimed 30-second cap. -/
theorem calculateRetryDelay_values :
    calculateRetryDelay 1 = 1000000000 ∧
    calculateRetryDelay 2 = 2000000000 ∧
    calculateRetryDelay 3 = 4000000000 ∧
    calculateRetryDelay 4 = 8000000000 ∧
    calculateRetryDelay 5 = 16000000000 ∧
    calculateRetryDelay 6 = 30000000000 ∧
    calculateRetryDelay 10 = 30000000000 ∧
    calculateRetryDelay 34 = 30000000000 ∧
    calculateRetryDelay 35 = -1266874889709551616 ∧
    calculateRetryDelay 64 = 0 := by
  refine ⟨?_, ?_, ?_, ?_, ?_, ?_, ?_, ?_, ?_, ?_⟩ <;> decide

/-- C4: with persistence succeeding, `DeliverEvent` creates one delivery
record per webhook, for exactly the enabled endpoints whose subscribed
event-type set contains the event's type, in row order — so a disabled
endpoint or a non-matching type never yields a record. -/
theorem deliverEvent_matching (rows : List WebhookEndpoint) (e : Event) (now : Int) :
    ((deliverEvent none (fun _ => true) rows e now).1).map (fun d => d.webhookID) =
      (rows.filter (fun w => w.enabled && w.eventTypes.contains e.type)).map
        (fun w => w.id) := by
  have h1 : matchingWebhooks rows e.type =
      rows.filter (fun w => w.enabled && w.eventTypes.contains e.type) := by
    unfold matchingWebhooks
    rw [List.filter_filter]
    exact List.filter_congr (fun a _ => by rw [Bool.and_comm])
  simp [deliverEvent, h1, List.map_map, initialDelivery, Function.comp]

/-- C5: the outgoing request's body is exactly the marshalled payload bytes,
and the `X-Webhook-Signature` header is present precisely when the endpoint
has a non-empty secret, carrying `"sha256=" ++` the lowercase hex of
HMAC-SHA256 keyed by the secret over those same body bytes. -/
theorem buildWebhookRequest_signature (w : WebhookEndpoint) (e : Event) (p : List Nat) :
    (buildWebhookRequest w e p).body = p ∧
    headerValue (buildWebhookRequest w e p) "X-Webhook-Signature" =
      (if w.secret = "" then none
       else some ("sha256=" ++ hexOfBytes (hmacSha256 (strBytes w.secret) p))) := by
  refine ⟨rfl, ?_⟩
  by_cases h : w.secret = ""
  · simp only [buildWebhookRequest, headerValue, if_pos h]
    rfl
  · simp only [buildWebhookRequest, headerValue, if_neg h, generateSignature]
    rfl

/-- C8 (amended): persistence failures on the publish path are logged and
dropped, not surfaced — `Manager.Publish` returns nil on every path (the
failed event is simply absent from the store), and `DeliverEvent` returns nil
whenever its webhook query succeeds, even when creating a delivery record
fails; only the webhook-query error itself is returned. -/
theorem publish_persistence_errors_logged :
    (∀ sp sr hs, (managerPublish sp sr hs).ret = none) ∧
    (∀ e hs, (managerPublish true (some e) hs).savedToStore = false) ∧
    (∀ e hs, ("Failed to save event to store: " ++ e) ∈ (managerPublish true (some e) hs).logged) ∧
    (∀ createOk rows ev now, (deliverEvent none createOk rows ev now).2 = none) ∧
    (∀ msg createOk rows ev now, (deliverEvent (some msg) createOk rows ev now).2 = some msg) := by
  refine ⟨fun sp sr hs => ?_, fun e hs => ?_, fun e hs => ?_,
    fun createOk rows ev now => rfl, fun msg createOk rows ev now => rfl⟩
  · cases hs <;> rfl
  · cases hs <;> rfl
  · cases hs <;> simp [managerPublish]

/-- C8 counterexample: a failing `SaveEvent` is not surfaced — `Publish`
returns nil, not the persistence error — and a `DeliverEvent` whose
delivery-record create fails also returns nil with no record persisted. -/
theorem publish_drops_save_error :
    (managerPublish true (some "disk full") (some [])).ret = none ∧
    (managerPublish true (some "disk full") (some [])).ret ≠ some "disk full" ∧
    (managerPublish true (some "disk full") (some [])).savedToStore = false ∧
    (deliverEvent none (fun _ => false) [wUser] evUser 0).1 = [] ∧
    (deliverEvent none (fun _ => false) [wUser] evUser 0).2 = none := by
  refine ⟨rfl, by decide, rfl, by decide, rfl⟩

/-- Unfolding of one `attemptDelivery` loop iteration. -/
theorem attemptLoop_succ (maxR : Nat) (times : Nat → Int) (results : Nat → HTTPResult)
    (fuel i : Nat) (d : WebhookDelivery) :
    attemptLoop maxR times results (fuel + 1) i d =
      (if (deliverToEndpoint (results i)).1 then attemptStep maxR i (times i) (results i) d
       else attemptLoop maxR times results fuel (i + 1)
         (attemptStep maxR i (times i) (results i) d)) := rfl

/-- C3 (amended): a failing attempt persists the record with the attempt's
loop index as its count — an increment of the stored count whenever that
count was `index - 1`, which holds throughout a dispatch-path run (the
hypothesis `hcount`; on a sweep re-attempt the stored count is instead
overwritten, see the counterexample); if that count has reached the
endpoint's max retries (3 when the configured value is non-positive) the
status becomes `"failed"` with the retry timestamp cleared, otherwise it
stays `"pending"` with `nextRetry = now + backoff(attemptCount)`; the
response and the error message are stored. -/
theorem attemptStep_failure (m : Int) (i : Nat) (now : Int) (r : HTTPResult)
    (d : WebhookDelivery) (hfail : (deliverToEndpoint r).1 = false)
    (hcount : d.attemptCount + 1 = i) :
    (attemptStep (effectiveMaxRetries m) i now r d).attemptCount = d.attemptCount + 1 ∧
    (i < effectiveMaxRetries m →
      (attemptStep (effectiveMaxRetries m) i now r d).status = "pending" ∧
      (attemptStep (effectiveMaxRetries m) i now r d).nextRetry =
        some (now + calculateRetryDelay (i : Int))) ∧
    (¬ i < effectiveMaxRetries m →
      (attemptStep (effectiveMaxRetries m) i now r d).status = "failed" ∧
      (attemptStep (effectiveMaxRetries m) i now r d).nextRetry = none) ∧
    (attemptStep (effectiveMaxRetries m) i now r d).response = (deliverToEndpoint r).2.1 ∧
    (∀ msg, (deliverToEndpoint r).2.2 = some msg →
      (attemptStep (effectiveMaxRetries m) i now r d).errorMessage = msg) ∧
    (m ≤ 0 → effectiveMaxRetries m = 3) := by
  subst hcount
  rcases hout : deliverToEndpoint r with ⟨succ, resp, err⟩
  rw [hout] at hfail
  simp only at hfail
  subst hfail
  refine ⟨?_, fun hi => ?_, fun hi => ?_, ?_, fun msg hmsg => ?_, fun hm => ?_⟩
  · cases err <;> by_cases hi : d.attemptCount + 1 < effectiveMaxRetries m <;>
      simp [attemptStep, hout, hi]
  · cases err <;> simp [attemptStep, hout, hi]
  · cases err <;> simp [attemptStep, hout, hi]
  · cases err <;> by_cases hi : d.attemptCount + 1 < effectiveMaxRetries m <;>
      simp [attemptStep, hout, hi]
  · have herr : err = some msg := hmsg
    subst herr
    by_cases hi : d.attemptCount + 1 < effectiveMaxRetries m <;>
      simp [attemptStep, hout, hi]
  · simp [effectiveMaxRetries, hm]

/-- C3 witness: with an unset retry bound (default 3), a first failing attempt
(HTTP 500) moves the fresh record to attempt count 1 and status `"pending"`. -/
theorem attemptStep_failure_witness :
    (attemptStep (effectiveMaxRetries 0) 1 0 (.response 500 [101]) dFresh).attemptCount =
      dFresh.attemptCount + 1 ∧
    (attemptStep (effectiveMaxRetries 0) 1 0 (.response 500 [101]) dFresh).status = "pending" :=
  ⟨(attemptStep_failure 0 1 0 (.response 500 [101]) dFresh (by decide) (by decide)).1,
   ((attemptStep_failure 0 1 0 (.response 500 [101]) dFresh (by decide) (by decide)).2.1
      (by decide)).1⟩

/-- C3 counterexample: a failing attempt does not always increment the stored
attempt count. The sweep selects the due pending record holding count 2 and
re-invokes the attempt loop at index 1; the first attempt fails with HTTP 500
and the record the loop persists after that failing attempt carries count 1 —
an overwrite, not `2 + 1`. -/
theorem attemptStep_sweep_count_not_incremented :
    retryDue [dSwept] 0 = [dSwept] ∧
    (deliverToEndpoint (resultsFlaky 1)).1 = false ∧
    dSwept.attemptCount = 2 ∧
    (attemptStep (effectiveMaxRetries wUser.maxRetries) 1 (timesZero 1) (resultsFlaky 1)
      dSwept).attemptCount = 1 ∧
    ¬ ((attemptStep (effectiveMaxRetries wUser.maxRetries) 1 (timesZero 1) (resultsFlaky 1)
        dSwept).attemptCount = dSwept.attemptCount + 1) := by
  refine ⟨by decide, by decide, rfl, by decide, by decide⟩

/-- C6 (amended): every record the attempt loop persists — after any attempt,
whether from dispatch or from the sweep — satisfies the invariant
"next-retry present iff pending with attempts remaining"; the initial record
created at dispatch time does not (see the counterexample). -/
theorem attemptStep_nextRetry_invariant (maxR i : Nat) (now : Int) (r : HTTPResult)
    (d : WebhookDelivery) : nextRetryInvariant maxR (attemptStep maxR i now r d) := by
  unfold nextRetryInvariant
  rcases hout : deliverToEndpoint r with ⟨succ, resp, err⟩
  cases succ
  · by_cases hi : i < maxR
    · cases err <;> simp [attemptStep, hout, hi]
    · cases err <;> simp [attemptStep, hout, hi]
  · simp [attemptStep, hout]

/-- C6 counterexample: the record `DeliverEvent` creates before its first
attempt is `"pending"` with attempts remaining yet has no `next_retry`,
violating the claimed iff at a record produced by a core operation. -/
theorem deliverEvent_initial_record_violates :
    (deliverEvent none (fun _ => true) [wUser] evUser 0).1 =
      [initialDelivery "del_wh1" wUser evUser 0] ∧
    (initialDelivery "del_wh1" wUser evUser 0).status = "pending" ∧
    (initialDelivery "del_wh1" wUser evUser 0).attemptCount <
      effectiveMaxRetries wUser.maxRetries ∧
    (initialDelivery "del_wh1" wUser evUser 0).nextRetry = none ∧
    ¬ nextRetryInvariant (effectiveMaxRetries wUser.maxRetries)
        (initialDelivery "del_wh1" wUser evUser 0) := by
  refine ⟨by decide, rfl, by decide, rfl, ?_⟩
  unfold nextRetryInvariant
  decide

/-- C7 counterexample: the sweep selects the due pending record with two
recorded attempts, but re-invoking `attemptDelivery` restarts the loop at
attempt 1, so after a first-try success the stored count drops to 1 — not
strictly greater than the count held before the sweep. -/
theorem attemptDelivery_reset_on_sweep :
    retryDue [dSwept] 0 = [dSwept] ∧
    dSwept.attemptCount = 2 ∧
    (attemptDelivery wUser timesZero resultsOk dSwept).attemptCount = 1 ∧
    ¬ ((attemptDelivery wUser timesZero resultsOk dSwept).attemptCount >
        dSwept.attemptCount) := by
  refine ⟨by decide, rfl, by decide, by decide⟩

/-- C7 (amended): each `attemptDelivery` invocation overwrites the stored
attempt count with its own loop index; in the 500-then-200 scenario the
invocation ends `"success"` with attempt count 2 — regardless of whatever
count the record carried before. -/
theorem attemptDelivery_flaky (w : WebhookEndpoint) (times : Nat → Int)
    (results : Nat → HTTPResult) (d : WebhookDelivery) (b1 b2 : List Nat)
    (hmax : 2 ≤ effectiveMaxRetries w.maxRetries)
    (h1 : results 1 = .response 500 b1) (h2 : results 2 = .response 200 b2) :
    (attemptDelivery w times results d).status = "success" ∧
    (attemptDelivery w times results d).attemptCount = 2 := by
  obtain ⟨k, hk⟩ := Nat.le.dest hmax
  have hn : effectiveMaxRetries w.maxRetries = (k + 1) + 1 := by omega
  have hfail1 : (deliverToEndpoint (results 1)).1 = false := by rw [h1]; rfl
  have hsucc2 : (deliverToEndpoint (results 2)).1 = true := by rw [h2]; rfl
  unfold attemptDelivery
  rw [hn, attemptLoop_succ, hfail1]
  simp only [Bool.false_eq_true, if_false]
  rw [attemptLoop_succ, hsucc2]
  simp only [if_true]
  rw [h2]
  constructor <;> simp [attemptStep, deliverToEndpoint]

/-- C7 witness: the flaky-endpoint scenario run on the already-attempted
record ends `"success"` with attempt count 2. -/
theorem attemptDelivery_flaky_witness :
    (attemptDelivery wUser timesZero resultsFlaky dSwept).status = "success" ∧
    (attemptDelivery wUser timesZero resultsFlaky dSwept).attemptCount = 2 :=
  attemptDelivery_flaky wUser timesZero resultsFlaky dSwept [101] [111, 107]
    (by decide) (by decide) (by decide)

/-- C9 (amended): a 2xx response moves the record to `"success"`, clears the
next-retry timestamp and the error message, and stores the response body —
unchanged when it is at most 1000 bytes, otherwise its first 1000 bytes with
`"..."` appended (1003 bytes, not the claimed at-most-1000). -/
theorem attemptStep_success (maxR i : Nat) (now : Int) (status : Nat) (body : List Nat)
    (d : WebhookDelivery) (h1 : 200 ≤ status) (h2 : status < 300) :
    (attemptStep maxR i now (.response status body) d).status = "success" ∧
    (attemptStep maxR i now (.response status body) d).response = truncateResponse body ∧
    (attemptStep maxR i now (.response status body) d).nextRetry = none ∧
    (attemptStep maxR i now (.response status body) d).errorMessage = "" ∧
    (attemptStep maxR i now (.response status body) d).attemptCount = i ∧
    (body.length ≤ 1000 → truncateResponse body = body) ∧
    (1000 < body.length → truncateResponse body = body.take 1000 ++ [46, 46, 46]) := by
  have hs : (decide (200 ≤ status) && decide (status < 300)) = true := by
    simp [h1, h2]
  refine ⟨?_, ?_, ?_, ?_, ?_, fun hlen => ?_, fun hlen => ?_⟩
  · simp [attemptStep, deliverToEndpoint, hs]
  · simp [attemptStep, deliverToEndpoint, hs]
  · simp [attemptStep, deliverToEndpoint, hs]
  · simp [attemptStep, deliverToEndpoint, hs]
  · simp [attemptStep, deliverToEndpoint, hs]
  · unfold truncateResponse
    rw [if_neg (by omega)]
  · unfold truncateResponse
    rw [if_pos (by omega)]

/-- C9 witness: a 200 response with a 2-byte body yields a `"success"` record
storing the body verbatim with retry state and error message cleared. -/
theorem attemptStep_success_witness :
    (attemptStep 3 1 0 (.response 200 [111, 107]) dFresh).status = "success" ∧
    (attemptStep 3 1 0 (.response 200 [111, 107]) dFresh).response =
      truncateResponse [111, 107] ∧
    (attemptStep 3 1 0 (.response 200 [111, 107]) dFresh).nextRetry = none ∧
    (attemptStep 3 1 0 (.response 200 [111, 107]) dFresh).errorMessage = "" ∧
    (attemptStep 3 1 0 (.response 200 [111, 107]) dFresh).attemptCount = 1 ∧
    ([111, 107].length ≤ 1000 → truncateResponse [111, 107] = [111, 107]) ∧
    (1000 < [111, 107].length →
      truncateResponse [111, 107] = [111, 107].take 1000 ++ [46, 46, 46]) :=
  attemptStep_success 3 1 0 200 [111, 107] dFresh (by decide) (by decide)

set_option maxRecDepth 100000 in
/-- C9 counterexample: a successful attempt with a 1001-byte response stores
1003 bytes (the first 1000 plus `"..."`), so the stored body is not the
received body truncated to at most 1000 characters. -/
theorem attemptStep_truncation_overflows :
    (attemptStep 3 1 0 (.response 200 longBody) dFresh).status = "success" ∧
    (attemptStep 3 1 0 (.response 200 longBody) dFresh).response =
      longBody.take 1000 ++ [46, 46, 46] ∧
    (attemptStep 3 1 0 (.response 200 longBody) dFresh).response.length = 1003 ∧
    ¬ ((attemptStep 3 1 0 (.response 200 longBody) dFresh).response.length ≤ 1000) := by
  refine ⟨by decide, by decide, by decide, by decide⟩

/-- C10 (amended): `randomString` is a deterministic function of its length —
character `i` is `charset[i % 62]`, so for `n ≤ 62` the result is the first
`n` characters of the charset (beyond 62 it cycles) — and `generateEventID`
is `"event_<unix second>_abcdefgh"`: two identifiers generated in the same
second are identical. -/
theorem randomString_deterministic (n : Nat) (h : n ≤ 62) :
    (randomString n).data = charsetChars.take n ∧
    (∀ t : Int, generateEventID t = "event_" ++ toString t ++ "_" ++ "abcdefgh") := by
  constructor
  · apply List.ext_getElem
    · simp [randomString, charsetChars]
      omega
    · intro i h1 h2
      simp only [randomString, List.getElem_map, List.getElem_range, List.getElem_take]
      rw [Nat.mod_eq_of_lt (by simp [randomString] at h1; simp [charsetChars]; omega)]
      rw [List.getD_eq_getElem]
  · intro t
    have h8 : randomString 8 = "abcdefgh" := by decide
    unfold generateEventID
    rw [h8]

/-- C10 witness: `randomString 8` is the charset's first eight characters and
a concrete unix second produces the fully determined identifier. -/
theorem randomString_deterministic_witness :
    (randomString 8).data = charsetChars.take 8 ∧
    generateEventID 1700000000 =
      "event_" ++ toString (1700000000 : Int) ++ "_" ++ "abcdefgh" :=
  ⟨(randomString_deterministic 8 (by decide)).1,
   (randomString_deterministic 8 (by decide)).2 1700000000⟩

set_option maxRecDepth 4000 in
/-- C10 counterexample: `randomString 63` is not the first 63 characters of
the 62-character charset — it has 63 characters and wraps around, so
"returns the first n characters of the fixed charset" fails beyond 62. -/
theorem randomString_63_not_prefix :
    (randomString 63).data ≠ charsetChars.take 63 ∧
    (randomString 63).data.length = 63 ∧
    (charsetChars.take 63).length = 62 := by
  refine ⟨by decide, by decide, by decide⟩
